import Mathlib

/-!
Verification of the `open_clip` image preprocessing module
(`src/open_clip/transform.py`): a shallow embedding of the data model
(augmentation configuration, probabilistic wrappers, resize-with-padding)
and of the pipeline builder `image_transform`, together with theorems
settling the specified properties.

Image contents themselves are handled by external library primitives
(`torchvision`), so images are modelled symbolically: an image is a trace
of the operations applied to a base raster of known height and width, which
is enough to reason about spatial dimensions, pipeline structure, and
randomness consumption.
-/

set_option autoImplicit false

namespace OpenClipTransform

/-- Python's built-in `round`: round half to even (banker's rounding),
modelled exactly on rationals. -/
def pyRound (q : ℚ) : ℤ :=
  let f : ℤ := ⌊q⌋
  let r : ℚ := q - f
  if r < 1/2 then f
  else if 1/2 < r then f + 1
  else if Even f then f else f + 1

/-- Interpolation modes used by the module (`InterpolationMode`). -/
inductive Interp where
  | bicubic
  | bilinear
deriving DecidableEq, Repr

/-- Symbolic image: a base raster of given (height, width) together with the
trace of resize/pad operations applied to it.  The pixel-level semantics of
resize and pad live in the external library; their effect on spatial
dimensions is captured by `dimsOf`. -/
inductive ImgOp where
  | base (height width : ℕ)
  | resize (interp : Interp) (newHeight newWidth : ℤ) (inner : ImgOp)
  | pad (left top right bottom : ℤ) (fill : ℤ) (inner : ImgOp)
deriving DecidableEq, Repr

/-- Spatial dimensions (height, width) of a symbolic image. -/
def dimsOf : ImgOp → ℤ × ℤ
  | ImgOp.base h w => ((h : ℤ), (w : ℤ))
  | ImgOp.resize _ nh nw _ => (nh, nw)
  | ImgOp.pad l t r b _ inner =>
      let d := dimsOf inner
      (d.1 + t + b, d.2 + l + r)

/-- Dimensions of the content before any final padding step: for a padded
image, the dimensions of what was padded; otherwise the image's own
dimensions. -/
def prePadDims : ImgOp → ℤ × ℤ
  | ImgOp.pad _ _ _ _ _ inner => dimsOf inner
  | op => dimsOf op

/-- The aggregation function selector stored by `ResizeMaxSize.__init__`
(the Python builtins `min`/`max`). -/
inductive AggFn where
  | aggMin
  | aggMax
deriving DecidableEq, Repr

/-- The state of a constructed `ResizeMaxSize` module: `max_size`,
`interpolation`, the stored aggregation function `fn`, and `fill`. -/
structure ResizeMaxSizeMod where
  max_size : ℕ
  interpolation : Interp
  fn : AggFn
  fill : ℤ
deriving DecidableEq, Repr

/-- `ResizeMaxSize.__init__`: stores the arguments; the `fn` selector is
translated by the source expression `min if fn == 'min' else min`. -/
def resizeMaxSizeInit (max_size : ℕ) (interpolation : Interp) (fn : String)
    (fill : ℤ) : ResizeMaxSizeMod :=
  { max_size := max_size
    interpolation := interpolation
    fn := if fn = "min" then AggFn.aggMin else AggFn.aggMin
    fill := fill }

/-- `ResizeMaxSize.forward` on an input raster of the given height and width:
compute `scale = max_size / max(height, width)`, the rounded `new_size`,
resize when `scale ≠ 1`, and pad to a `max_size` square when the input was
not square. -/
def resizeMaxSizeForward (m : ResizeMaxSizeMod) (height width : ℕ) : ImgOp :=
  let scale : ℚ := (m.max_size : ℚ) / (((max height width : ℕ)) : ℚ)
  let new_h : ℤ := pyRound ((height : ℚ) * scale)
  let new_w : ℤ := pyRound ((width : ℚ) * scale)
  let img0 : ImgOp := ImgOp.base height width
  let img1 : ImgOp :=
    if scale ≠ 1 then ImgOp.resize m.interpolation new_h new_w img0 else img0
  if width ≠ height then
    let pad_h : ℤ := (m.max_size : ℤ) - new_h
    let pad_w : ℤ := (m.max_size : ℤ) - new_w
    ImgOp.pad (pad_w.fdiv 2) (pad_h.fdiv 2) (pad_w - pad_w.fdiv 2)
      (pad_h - pad_h.fdiv 2) m.fill img1
  else img1

/-- The `color_jitter` magnitude accepted by `AugmentationCfg.color_jitter`:
a single float, a 3-tuple, or a 4-tuple. -/
inductive JitterMag where
  | scalar (x : ℚ)
  | triple (a b c : ℚ)
  | quad (a b c d : ℚ)
deriving DecidableEq, Repr

/-- Python `len` on a jitter magnitude: defined for tuples, a `TypeError`
(`none`) for a bare float. -/
def JitterMag.len : JitterMag → Option ℕ
  | JitterMag.scalar _ => Option.none
  | JitterMag.triple _ _ _ => Option.some 3
  | JitterMag.quad _ _ _ _ => Option.some 4

/-- The `AugmentationCfg` dataclass.  Fields whose dataclass default is
`None` are `Option`s; `scale` defaults to `(0.9, 1.0)` and `use_timm` to
`False`, mirroring the source defaults. -/
structure AugmentationCfg where
  scale : Option (ℚ × ℚ) := Option.some (9/10, 1)
  ratio : Option (ℚ × ℚ) := Option.none
  color_jitter : Option JitterMag := Option.none
  interpolation : Option String := Option.none
  re_prob : Option ℚ := Option.none
  re_count : Option ℕ := Option.none
  use_timm : Bool := false
  color_jitter_prob : Option ℚ := Option.none
  gray_scale_prob : Option ℚ := Option.none
deriving DecidableEq, Repr

/-- Python truthiness of an optional float: `None` and `0.0` are falsy. -/
def truthy : Option ℚ → Bool
  | Option.none => false
  | Option.some q => q != 0

/-- The steps a built pipeline is composed of.  Library primitives
(`RandomResizedCrop`, `Resize`, `CenterCrop`, `ToTensor`, `Normalize`,
`_convert_to_rgb`) are identified by name and parameters; their pixel
semantics stay external. -/
inductive Step where
  | randomResizedCrop (size : ℕ) (scale : ℚ × ℚ) (interp : Interp)
  | convertToRGB
  | colorJitterStep (mag : JitterMag) (p : ℚ)
  | grayScaleStep (p : ℚ)
  | toTensor
  | normalizeStep (mean std : List ℚ)
  | resizeMaxSizeStep (size : ℕ) (fill : ℤ)
  | resizeShortest (size : ℕ) (interp : Interp)
  | centerCrop (size : ℕ)
deriving DecidableEq, Repr

/-- Errors a pipeline-build call can raise synchronously. -/
inductive BuildErr where
  | keyErr
  | assertErr
  | typeErr
deriving DecidableEq, Repr

/-- The state of a constructed `color_jitter` wrapper. -/
structure ColorJitterState where
  p : ℚ
  brightness : ℚ
  contrast : ℚ
  saturation : ℚ
  hue : ℚ
deriving DecidableEq, Repr

/-- `color_jitter.__init__`: asserts `0. <= p <= 1.`, then stores `p` and
wraps a `ColorJitter` transform with the four magnitudes. -/
def color_jitter_init (brightness contrast saturation hue p : ℚ) :
    Except BuildErr ColorJitterState :=
  if 0 ≤ p ∧ p ≤ 1 then
    Except.ok ⟨p, brightness, contrast, saturation, hue⟩
  else Except.error BuildErr.assertErr

/-- The state of a constructed `gray_scale` wrapper: its probability and the
fixed `num_output_channels=3` of the wrapped `Grayscale` transform. -/
structure GrayScaleState where
  p : ℚ
  num_output_channels : ℕ
deriving DecidableEq, Repr

/-- `gray_scale.__init__`: asserts `0. <= p <= 1.`, then stores `p` and a
`Grayscale(num_output_channels=3)` transform. -/
def gray_scale_init (p : ℚ) : Except BuildErr GrayScaleState :=
  if 0 ≤ p ∧ p ≤ 1 then Except.ok ⟨p, 3⟩ else Except.error BuildErr.assertErr

/-- `color_jitter.__call__`: draw `r` from the random source
(`random.random()`, so `0 ≤ r < 1`); apply the wrapped transform `transf`
when `r < p`, otherwise return the image unchanged. -/
def color_jitter_call {Img : Type} (p : ℚ) (transf : Img → Img) (r : ℚ)
    (img : Img) : Img :=
  if r < p then transf img else img

/-- `gray_scale.__call__`: same probability gate as `color_jitter.__call__`,
with the grayscale conversion as the wrapped transform. -/
def gray_scale_call {Img : Type} (p : ℚ) (transf : Img → Img) (r : ℚ)
    (img : Img) : Img :=
  if r < p then transf img else img

/-- Keys present in `aug_cfg_dict = {k: v for k, v in asdict(aug_cfg).items()
if v is not None}`, in dataclass field order.  `use_timm` is a `bool`, never
`None`, so it is always present. -/
def setKeys (cfg : AugmentationCfg) : List String :=
  (if cfg.scale.isSome then ["scale"] else []) ++
  (if cfg.ratio.isSome then ["ratio"] else []) ++
  (if cfg.color_jitter.isSome then ["color_jitter"] else []) ++
  (if cfg.interpolation.isSome then ["interpolation"] else []) ++
  (if cfg.re_prob.isSome then ["re_prob"] else []) ++
  (if cfg.re_count.isSome then ["re_count"] else []) ++
  ["use_timm"] ++
  (if cfg.color_jitter_prob.isSome then ["color_jitter_prob"] else []) ++
  (if cfg.gray_scale_prob.isSome then ["gray_scale_prob"] else [])

/-- The keys left in `aug_cfg_dict` on the built-in training path when the
warning is issued: everything set, minus the popped `use_timm` and `scale`. -/
def unusedKeys (cfg : AugmentationCfg) : List String :=
  ((setKeys cfg).erase "use_timm").erase "scale"

/-- The color-jitter portion of the built-in training pipeline:
`if aug_cfg.color_jitter_prob:` guards an assertion that `color_jitter` is
present with `len == 4`, then constructs the `color_jitter` wrapper (whose
initializer asserts `0 ≤ p ≤ 1`). -/
def cjSteps (cfg : AugmentationCfg) : Except BuildErr (List Step) :=
  match cfg.color_jitter_prob with
  | Option.none => Except.ok []
  | Option.some p =>
    if p = 0 then Except.ok []
    else
      match cfg.color_jitter with
      | Option.none => Except.error BuildErr.assertErr
      | Option.some mag =>
        match JitterMag.len mag with
        | Option.none => Except.error BuildErr.typeErr
        | Option.some n =>
          if n = 4 then
            if 0 ≤ p ∧ p ≤ 1 then Except.ok [Step.colorJitterStep mag p]
            else Except.error BuildErr.assertErr
          else Except.error BuildErr.assertErr

/-- The grayscale portion of the built-in training pipeline:
`if aug_cfg.gray_scale_prob:` guards construction of the `gray_scale`
wrapper (whose initializer asserts `0 ≤ p ≤ 1`). -/
def gsSteps (cfg : AugmentationCfg) : Except BuildErr (List Step) :=
  match cfg.gray_scale_prob with
  | Option.none => Except.ok []
  | Option.some p =>
    if p = 0 then Except.ok []
    else
      if 0 ≤ p ∧ p ≤ 1 then Except.ok [Step.grayScaleStep p]
      else Except.error BuildErr.assertErr

/-- The ordered step list of the built-in (non-timm) training pipeline:
`RandomResizedCrop(image_size, scale=aug_cfg_dict.pop('scale'),
interpolation=BICUBIC)` (a missing `scale` key raises `KeyError`),
`_convert_to_rgb`, the optional jitter and grayscale wrappers, `ToTensor`,
and `Normalize(mean, std)`. -/
def buildSteps (cfg : AugmentationCfg) (image_size : ℕ) (mean std : List ℚ) :
    Except BuildErr (List Step) :=
  match cfg.scale with
  | Option.none => Except.error BuildErr.keyErr
  | Option.some sc =>
    match cjSteps cfg with
    | Except.error e => Except.error e
    | Except.ok cj =>
      match gsSteps cfg with
      | Except.error e => Except.error e
      | Except.ok gs =>
        Except.ok ([Step.randomResizedCrop image_size sc Interp.bicubic,
          Step.convertToRGB] ++ cj ++ gs ++
          [Step.toTensor, Step.normalizeStep mean std])

/-- The train-mode built-in path of `image_transform`: build the composed
step list, then warn about the remaining `aug_cfg_dict` keys when any are
left.  Returns the steps together with the list of keys the warning
names (empty list: no warning emitted). -/
def buildTrainBuiltin (cfg : AugmentationCfg) (image_size : ℕ)
    (mean std : List ℚ) : Except BuildErr (List Step × List String) :=
  match buildSteps cfg image_size mean std with
  | Except.error e => Except.error e
  | Except.ok steps => Except.ok (steps, unusedKeys cfg)

/-- The eval-mode path of `image_transform`: `ResizeMaxSize(image_size,
fill=fill_color)` when `resize_longest_max` is set, otherwise
`Resize(image_size, BICUBIC)` followed by `CenterCrop(image_size)`; then
`_convert_to_rgb`, `ToTensor`, `Normalize(mean, std)`. -/
def evalSteps (image_size : ℕ) (resize_longest_max : Bool) (fill_color : ℤ)
    (mean std : List ℚ) : List Step :=
  (if resize_longest_max then [Step.resizeMaxSizeStep image_size fill_color]
   else [Step.resizeShortest image_size Interp.bicubic,
     Step.centerCrop image_size]) ++
  [Step.convertToRGB, Step.toTensor, Step.normalizeStep mean std]

/-- Which steps draw from the process-wide random source when invoked:
`RandomResizedCrop` and the two probabilistic wrappers do; the resize, crop,
RGB-coercion, tensor-conversion and normalization steps are deterministic. -/
def consumesRandomness : Step → Bool
  | Step.randomResizedCrop _ _ _ => true
  | Step.colorJitterStep _ _ => true
  | Step.grayScaleStep _ => true
  | _ => false

/-- A denotational semantics for pipeline steps over an abstract image type:
each deterministic step acts as a function of the image, each randomized
step additionally consumes one draw from the random source. -/
structure StepSem (Img : Type) where
  det : Step → Img → Img
  rnd : Step → ℚ → Img → Img

/-- Run one step, threading the stream of pending random draws: a
randomized step consumes the head draw, a deterministic step consumes
nothing. -/
def runStep {Img : Type} (sem : StepSem Img) (s : Step) :
    Img × List ℚ → Img × List ℚ
  | (img, rs) =>
    if consumesRandomness s then
      match rs with
      | [] => (sem.rnd s 0 img, [])
      | r :: rest => (sem.rnd s r img, rest)
    else (sem.det s img, rs)

/-- Run a pipeline: apply its steps in order, threading the random draws. -/
def runPipeline {Img : Type} (sem : StepSem Img) (steps : List Step)
    (st : Img × List ℚ) : Img × List ℚ :=
  steps.foldl (fun acc s => runStep sem s acc) st

/-- Modelled from the spec: `OPENAI_DATASET_MEAN`, the fixed reference
constant triple that `image_transform` falls back to when `mean` is omitted;
it lives in `constants.py`, which is not part of the given source.  The
values are the upstream reference constants. -/
def OPENAI_DATASET_MEAN : List ℚ :=
  [48145466/100000000, 4578275/10000000, 40821073/100000000]

/-- Modelled from the spec: `OPENAI_DATASET_STD`, the fixed reference
constant triple that `image_transform` falls back to when `std` is omitted;
it lives in `constants.py`, which is not part of the given source. -/
def OPENAI_DATASET_STD : List ℚ :=
  [26862954/100000000, 26130258/100000000, 27577711/100000000]

/-- A value passed as the `mean` or `std` argument of `image_transform`:
`None`, a bare scalar, or a list/tuple of floats. -/
inductive NormArg where
  | noneArg
  | scalar (x : ℚ)
  | tup (xs : List ℚ)
deriving DecidableEq, Repr

/-- Python truthiness of a `mean`/`std` argument: `None`, the scalar `0`,
and an empty sequence are falsy. -/
def normArgTruthy : NormArg → Bool
  | NormArg.noneArg => false
  | NormArg.scalar x => x != 0
  | NormArg.tup xs => !xs.isEmpty

/-- The `mean`/`std` resolution in `image_transform`:
`mean = mean or DEFAULT` followed by
`if not isinstance(mean, (list, tuple)): mean = (mean,) * 3`. -/
def resolveNorm (arg : NormArg) (dflt : List ℚ) : List ℚ :=
  if normArgTruthy arg then
    match arg with
    | NormArg.noneArg => dflt
    | NormArg.scalar x => [x, x, x]
    | NormArg.tup xs => xs
  else dflt

/-- The recognized `AugmentationCfg` field names, in dataclass order. -/
def recognizedKeys : List String :=
  ["scale", "ratio", "color_jitter", "interpolation", "re_prob", "re_count",
   "use_timm", "color_jitter_prob", "gray_scale_prob"]

/-- `AugmentationCfg(**aug_cfg)` applied to a mapping with the given keys:
it raises `TypeError` at the first keyword that is not a dataclass field,
and succeeds when every key is recognized. -/
def checkAugCfgKeys : List String → Except String Unit
  | [] => Except.ok ()
  | k :: ks =>
    if k ∈ recognizedKeys then checkAugCfgKeys ks else Except.error k

/-- Spec-side description, following the amended claim's words: the optional
`AugmentationCfg` fields other than the popped `scale` and `use_timm` that
are set, in dataclass field order. -/
def extraKeys (cfg : AugmentationCfg) : List String :=
  (if cfg.ratio.isSome then ["ratio"] else []) ++
  (if cfg.color_jitter.isSome then ["color_jitter"] else []) ++
  (if cfg.interpolation.isSome then ["interpolation"] else []) ++
  (if cfg.re_prob.isSome then ["re_prob"] else []) ++
  (if cfg.re_count.isSome then ["re_count"] else []) ++
  (if cfg.color_jitter_prob.isSome then ["color_jitter_prob"] else []) ++
  (if cfg.gray_scale_prob.isSome then ["gray_scale_prob"] else [])

/-- A configuration that sets only the jitter options the built-in path
consumes: `color_jitter_prob = 1` with a 4-tuple `color_jitter`. -/
def cfgJitterConsumed : AugmentationCfg :=
  { color_jitter := Option.some (JitterMag.quad 0 0 0 0)
    color_jitter_prob := Option.some 1 }

/-- A configuration that sets only `ratio`, an option the built-in path
never consumes. -/
def cfgRatioOnly : AugmentationCfg :=
  { ratio := Option.some (3/4, 4/3) }

/-- A configuration with both probabilistic steps enabled. -/
def cfgBothProbs : AugmentationCfg :=
  { color_jitter := Option.some (JitterMag.quad 0 0 0 0)
    color_jitter_prob := Option.some 1
    gray_scale_prob := Option.some 1 }

/-- A configuration whose `color_jitter_prob` is set, but to the falsy
value `0.0`. -/
def cfgJitterProbZero : AugmentationCfg :=
  { color_jitter_prob := Option.some 0 }

/-- Whether a pipeline step is a probabilistic color-jitter step. -/
def isColorJitterStep : Step → Bool
  | Step.colorJitterStep _ _ => true
  | _ => false

/-- A configuration with a 4-tuple `color_jitter` but a jitter probability
of `2`, outside `[0, 1]`. -/
def cfgJitterProbTooBig : AugmentationCfg :=
  { color_jitter := Option.some (JitterMag.quad 0 0 0 0)
    color_jitter_prob := Option.some 2 }

/-- A configuration with a 4-tuple `color_jitter` and a valid jitter
probability of `1`. -/
def cfgJitterValid : AugmentationCfg :=
  { color_jitter := Option.some (JitterMag.quad 0 0 0 0)
    color_jitter_prob := Option.some 1 }

/-! ### Helper lemmas -/

theorem pyRound_intCast (n : ℤ) : pyRound (n : ℚ) = n := by
  simp [pyRound]

theorem pyRound_natCast (n : ℕ) : pyRound (n : ℚ) = n := by
  have := pyRound_intCast (n : ℤ)
  simpa using this

theorem resizeMaxSizeForward_congr (m₁ m₂ : ResizeMaxSizeMod) (h w : ℕ)
    (h1 : m₁.max_size = m₂.max_size)
    (h2 : m₁.interpolation = m₂.interpolation) (h3 : m₁.fill = m₂.fill) :
    resizeMaxSizeForward m₁ h w = resizeMaxSizeForward m₂ h w := by
  simp only [resizeMaxSizeForward, h1, h2, h3]

theorem cjSteps_ok (cfg : AugmentationCfg) (l : List Step)
    (h : cjSteps cfg = Except.ok l) :
    l = if truthy cfg.color_jitter_prob then
          [Step.colorJitterStep (cfg.color_jitter.getD (JitterMag.scalar 0))
            (cfg.color_jitter_prob.getD 0)]
        else [] := by
  cases hp : cfg.color_jitter_prob with
  | none =>
    simp only [cjSteps, hp, Except.ok.injEq] at h
    simp [truthy, hp, ← h]
  | some p =>
    by_cases hp0 : p = 0
    · subst hp0
      simp [cjSteps, hp] at h
      simp [truthy, hp, ← h]
    · cases hcj : cfg.color_jitter with
      | none => simp [cjSteps, hp, hp0, hcj] at h
      | some mag =>
        cases mag with
        | scalar x => simp [cjSteps, hp, hp0, hcj, JitterMag.len] at h
        | triple a b c => simp [cjSteps, hp, hp0, hcj, JitterMag.len] at h
        | quad a b c d =>
          by_cases hrange : 0 ≤ p ∧ p ≤ 1
          · simp [cjSteps, hp, hp0, hcj, JitterMag.len, hrange] at h
            simp [truthy, hp, hp0, hcj, ← h]
          · simp [cjSteps, hp, hp0, hcj, JitterMag.len, hrange] at h

theorem gsSteps_ok (cfg : AugmentationCfg) (l : List Step)
    (h : gsSteps cfg = Except.ok l) :
    l = if truthy cfg.gray_scale_prob then
          [Step.grayScaleStep (cfg.gray_scale_prob.getD 0)]
        else [] := by
  cases hp : cfg.gray_scale_prob with
  | none =>
    simp only [gsSteps, hp, Except.ok.injEq] at h
    simp [truthy, hp, ← h]
  | some p =>
    by_cases hp0 : p = 0
    · subst hp0
      simp [gsSteps, hp] at h
      simp [truthy, hp, ← h]
    · by_cases hrange : 0 ≤ p ∧ p ≤ 1
      · simp [gsSteps, hp, hp0, hrange] at h
        simp [truthy, hp, hp0, ← h]
      · simp [gsSteps, hp, hp0, hrange] at h

theorem buildTrainBuiltin_ok (cfg : AugmentationCfg) (image_size : ℕ)
    (mean std : List ℚ) (steps : List Step) (warn : List String)
    (h : buildTrainBuiltin cfg image_size mean std
      = Except.ok (steps, warn)) :
    ∃ sc cj gs, cfg.scale = Option.some sc ∧ cjSteps cfg = Except.ok cj ∧
      gsSteps cfg = Except.ok gs ∧
      steps = [Step.randomResizedCrop image_size sc Interp.bicubic,
        Step.convertToRGB] ++ cj ++ gs ++
        [Step.toTensor, Step.normalizeStep mean std] ∧
      warn = unusedKeys cfg := by
  cases hsc : cfg.scale with
  | none => simp [buildTrainBuiltin, buildSteps, hsc] at h
  | some sc =>
    cases hcj : cjSteps cfg with
    | error e => simp [buildTrainBuiltin, buildSteps, hsc, hcj] at h
    | ok cj =>
      cases hgs : gsSteps cfg with
      | error e => simp [buildTrainBuiltin, buildSteps, hsc, hcj, hgs] at h
      | ok gs =>
        simp only [buildTrainBuiltin, buildSteps, hsc, hcj, hgs,
          Except.ok.injEq, Prod.mk.injEq] at h
        exact ⟨sc, cj, gs, rfl, rfl, rfl, h.1.symm, h.2.symm⟩

set_option maxHeartbeats 1000000 in
theorem unusedKeys_eq_extraKeys (cfg : AugmentationCfg)
    (hsc : cfg.scale.isSome = true) : unusedKeys cfg = extraKeys cfg := by
  obtain ⟨s, rat, cj, itp, rp, rc, ut, cjp, gsp⟩ := cfg
  cases s with
  | none => simp at hsc
  | some sv =>
    cases rat <;> cases cj <;> cases itp <;> cases rp <;> cases rc <;>
      cases cjp <;> cases gsp <;> rfl

theorem extraKeys_eq_nil_iff (cfg : AugmentationCfg) :
    extraKeys cfg = [] ↔
      cfg.ratio = Option.none ∧ cfg.color_jitter = Option.none ∧
      cfg.interpolation = Option.none ∧ cfg.re_prob = Option.none ∧
      cfg.re_count = Option.none ∧ cfg.color_jitter_prob = Option.none ∧
      cfg.gray_scale_prob = Option.none := by
  obtain ⟨s, rat, cj, itp, rp, rc, ut, cjp, gsp⟩ := cfg
  cases rat <;> cases cj <;> cases itp <;> cases rp <;> cases rc <;>
    cases cjp <;> cases gsp <;> simp [extraKeys]

/-! ### Claim theorems -/

/-- Claim C1: for every `max_size` `M` and every input of positive height
and width, `ResizeMaxSize.forward` produces an output of exactly `M × M`
spatial dimensions, and the resized pre-padding content has dimensions
`(round(h·M/max(h,w)), round(w·M/max(h,w)))`. -/
theorem resize_max_size_output_square (M h w : ℕ) (interp : Interp)
    (fn : String) (fill : ℤ) (hh : 0 < h) (hw : 0 < w) :
    dimsOf (resizeMaxSizeForward (resizeMaxSizeInit M interp fn fill) h w)
        = ((M : ℤ), (M : ℤ)) ∧
    prePadDims (resizeMaxSizeForward (resizeMaxSizeInit M interp fn fill) h w)
        = (pyRound ((h : ℚ) * ((M : ℚ) / (((max h w : ℕ)) : ℚ))),
           pyRound ((w : ℚ) * ((M : ℚ) / (((max h w : ℕ)) : ℚ)))) := by
  have hmaxpos : 0 < max h w := lt_of_lt_of_le hh (Nat.le_max_left h w)
  have hmaxQ : (((max h w : ℕ)) : ℚ) ≠ 0 := by
    exact_mod_cast hmaxpos.ne'
  have hround1 : (M : ℚ) / (((max h w : ℕ)) : ℚ) = 1 →
      ∀ d : ℕ, pyRound ((d : ℚ) * ((M : ℚ) / (((max h w : ℕ)) : ℚ)))
        = (d : ℤ) := by
    intro hs d
    rw [hs, mul_one, pyRound_natCast]
  have hroundmax : ∀ d : ℕ, d = max h w →
      pyRound ((d : ℚ) * ((M : ℚ) / (((max h w : ℕ)) : ℚ))) = (M : ℤ) := by
    intro d hd
    have : (d : ℚ) * ((M : ℚ) / (((max h w : ℕ)) : ℚ)) = (M : ℚ) := by
      rw [hd]
      field_simp
    rw [this, pyRound_natCast]
  have hscale1 : (M : ℚ) / (((max h w : ℕ)) : ℚ) = 1 → (max h w) = M := by
    intro hs
    have : (M : ℚ) = (((max h w : ℕ)) : ℚ) := by
      field_simp at hs
      exact_mod_cast hs
    exact_mod_cast this.symm
  constructor
  · simp only [resizeMaxSizeForward, resizeMaxSizeInit]
    split_ifs with h1 h2 h2
    · simp only [dimsOf, Prod.mk.injEq]
      constructor <;> ring
    · push_neg at h2
      rw [hround1 h2 h, hround1 h2 w]
      simp only [dimsOf, Prod.mk.injEq]
      constructor <;> ring
    · have hwh : w = h := not_not.mp (by simpa using h1)
      have hmax : max h w = h := by
        rw [hwh, Nat.max_self]
      simp only [dimsOf, Prod.mk.injEq]
      refine ⟨hroundmax h hmax.symm, hroundmax w ?_⟩
      rw [hwh]
      exact (Nat.max_self h).symm
    · push_neg at h2
      have hwh : w = h := not_not.mp (by simpa using h1)
      have hmax : max h w = h := by
        rw [hwh, Nat.max_self]
      have hMh : h = M := by
        rw [← hmax]
        exact hscale1 h2
      simp only [dimsOf, Prod.mk.injEq]
      constructor
      · exact_mod_cast congrArg Nat.cast hMh
      · rw [hwh]
        exact_mod_cast congrArg Nat.cast hMh
  · simp only [resizeMaxSizeForward, resizeMaxSizeInit]
    split_ifs with h1 h2 h2
    · simp only [prePadDims, dimsOf]
    · push_neg at h2
      rw [hround1 h2 h, hround1 h2 w]
      simp only [prePadDims, dimsOf]
    · simp only [prePadDims, dimsOf]
    · push_neg at h2
      rw [hround1 h2 h, hround1 h2 w]
      simp only [prePadDims, dimsOf]

/-- Witness for C1 at `max_size = 224` on a 300×400 input. -/
theorem resize_max_size_output_square_witness :
    dimsOf (resizeMaxSizeForward
        (resizeMaxSizeInit 224 Interp.bicubic "max" 0) 300 400)
      = ((224 : ℤ), (224 : ℤ)) ∧
    prePadDims (resizeMaxSizeForward
        (resizeMaxSizeInit 224 Interp.bicubic "max" 0) 300 400)
      = (pyRound ((300 : ℚ) * ((224 : ℚ) / (((max 300 400 : ℕ)) : ℚ))),
         pyRound ((400 : ℚ) * ((224 : ℚ) / (((max 300 400 : ℕ)) : ℚ)))) :=
  resize_max_size_output_square 224 300 400 Interp.bicubic "max" 0
    (by decide) (by decide)

/-- Claim C2: whatever string is passed as the `fn` selector to
`ResizeMaxSize.__init__` (including the default `'max'`), the stored
aggregation function is `min`, and `forward` behaves identically for any
two requested selectors. -/
theorem resize_max_size_fn_always_min (M : ℕ) (interp : Interp) (fill : ℤ) :
    (∀ fn : String,
      (resizeMaxSizeInit M interp fn fill).fn = AggFn.aggMin) ∧
    (∀ (fn₁ fn₂ : String) (h w : ℕ),
      resizeMaxSizeForward (resizeMaxSizeInit M interp fn₁ fill) h w
        = resizeMaxSizeForward (resizeMaxSizeInit M interp fn₂ fill) h w) := by
  constructor
  · intro fn
    simp [resizeMaxSizeInit]
  · intro fn₁ fn₂ h w
    exact resizeMaxSizeForward_congr _ _ h w rfl rfl rfl

/-- Claim C5: with `p = 0`, the probabilistic color-jitter and grayscale
wrappers return the image unchanged for every value drawn from
`random.random()` (which lies in `[0, 1)`); with `p = 1` they apply the
wrapped transform on every invocation. -/
theorem prob_wrappers_p0_identity_p1_always {Img : Type}
    (transf : Img → Img) (r : ℚ) (img : Img) (hr0 : 0 ≤ r) (hr1 : r < 1) :
    color_jitter_call 0 transf r img = img ∧
    color_jitter_call 1 transf r img = transf img ∧
    gray_scale_call 0 transf r img = img ∧
    gray_scale_call 1 transf r img = transf img := by
  refine ⟨?_, ?_, ?_, ?_⟩ <;>
    simp [color_jitter_call, gray_scale_call, not_lt.mpr hr0, hr1]

/-- Witness for C5 on `Img = ℕ` with `transf = Nat.succ`, draw `1/2`. -/
theorem prob_wrappers_p0_identity_p1_always_witness :
    color_jitter_call 0 Nat.succ (1/2) 0 = 0 ∧
    color_jitter_call 1 Nat.succ (1/2) 0 = 1 ∧
    gray_scale_call 0 Nat.succ (1/2) 0 = 0 ∧
    gray_scale_call 1 Nat.succ (1/2) 0 = 1 :=
  prob_wrappers_p0_identity_p1_always Nat.succ (1/2) 0
    (by norm_num) (by norm_num)

/-- Claim C6: constructing `color_jitter` or `gray_scale` succeeds exactly
when the apply-probability `p` lies in the closed interval `[0, 1]`; outside
it the constructor's assertion fails. -/
theorem prob_wrappers_init_iff_p_in_unit (brightness contrast saturation
    hue p : ℚ) :
    ((color_jitter_init brightness contrast saturation hue p).isOk = true
      ↔ 0 ≤ p ∧ p ≤ 1) ∧
    ((gray_scale_init p).isOk = true ↔ 0 ≤ p ∧ p ≤ 1) := by
  constructor <;>
  · constructor
    · intro hok
      by_contra hp
      simp [color_jitter_init, gray_scale_init, hp, Except.isOk,
        Except.toBool] at hok
    · intro hp
      simp [color_jitter_init, gray_scale_init, hp, Except.isOk,
        Except.toBool]

/-- Claim C9: a Python-falsy `mean`/`std` argument (`None`, the scalar `0`,
an empty sequence) is replaced by the fixed reference default constants, a
non-falsy scalar is broadcast to a 3-tuple; in particular a requested
scalar mean of `0` (or std of `0`) silently falls back to the defaults
instead of yielding zero-mean (or unit) normalization. -/
theorem norm_arg_falsy_falls_back_to_defaults :
    resolveNorm NormArg.noneArg OPENAI_DATASET_MEAN = OPENAI_DATASET_MEAN ∧
    resolveNorm (NormArg.scalar 0) OPENAI_DATASET_MEAN
      = OPENAI_DATASET_MEAN ∧
    resolveNorm (NormArg.tup []) OPENAI_DATASET_MEAN = OPENAI_DATASET_MEAN ∧
    resolveNorm (NormArg.scalar 0) OPENAI_DATASET_STD = OPENAI_DATASET_STD ∧
    resolveNorm (NormArg.scalar 0) OPENAI_DATASET_MEAN ≠ [0, 0, 0] ∧
    resolveNorm (NormArg.scalar 0) OPENAI_DATASET_STD ≠ [1, 1, 1] ∧
    (∀ x : ℚ, x ≠ 0 →
      resolveNorm (NormArg.scalar x) OPENAI_DATASET_MEAN = [x, x, x]) := by
  refine ⟨rfl, rfl, rfl, rfl,
    by norm_num [resolveNorm, normArgTruthy, OPENAI_DATASET_MEAN],
    by norm_num [resolveNorm, normArgTruthy, OPENAI_DATASET_STD], ?_⟩
  intro x hx
  simp [resolveNorm, normArgTruthy, hx]

/-- Witness for C9's broadcast clause at the scalar `2`. -/
theorem norm_arg_falsy_falls_back_to_defaults_witness :
    resolveNorm (NormArg.scalar 2) OPENAI_DATASET_MEAN = [2, 2, 2] :=
  norm_arg_falsy_falls_back_to_defaults.2.2.2.2.2.2 2 (by norm_num)

/-- Claim C8: building `AugmentationCfg` from a mapping succeeds exactly
when every key is one of the nine recognized field names; any mapping
containing an unrecognized key fails with a configuration error. -/
theorem aug_cfg_keys_recognized_iff_ok (ks : List String) :
    (checkAugCfgKeys ks).isOk = true ↔ ∀ k ∈ ks, k ∈ recognizedKeys := by
  induction ks with
  | nil => simp [checkAugCfgKeys, Except.isOk, Except.toBool]
  | cons k ks ih =>
    by_cases hk : k ∈ recognizedKeys
    · simp [checkAugCfgKeys, hk, ih]
    · simp [checkAugCfgKeys, hk, Except.isOk, Except.toBool]

/-- Claim C10: both eval-mode pipelines consume no randomness, and their
output is identical for any two streams of random draws: every step on the
eval path is deterministic. -/
theorem eval_pipeline_deterministic {Img : Type} (sem : StepSem Img)
    (image_size : ℕ) (resize_longest_max : Bool) (fill_color : ℤ)
    (mean std : List ℚ) (img : Img) (rs rs' : List ℚ) :
    (runPipeline sem
        (evalSteps image_size resize_longest_max fill_color mean std)
        (img, rs)).2 = rs ∧
    (runPipeline sem
        (evalSteps image_size resize_longest_max fill_color mean std)
        (img, rs)).1 =
      (runPipeline sem
        (evalSteps image_size resize_longest_max fill_color mean std)
        (img, rs')).1 := by
  cases resize_longest_max <;>
    simp [evalSteps, runPipeline, runStep, consumesRandomness]

/-- Counterexample to claim C3 as stated: with `color_jitter_prob` and
`color_jitter` set — options the built-in path consumes — construction
succeeds but the warning still names both of them as unused. -/
theorem builtin_warning_names_consumed_counterexample :
    buildTrainBuiltin cfgJitterConsumed 224 [0, 0, 0] [1, 1, 1]
      = Except.ok ([Step.randomResizedCrop 224 (9/10, 1) Interp.bicubic,
          Step.convertToRGB,
          Step.colorJitterStep (JitterMag.quad 0 0 0 0) 1,
          Step.toTensor, Step.normalizeStep [0, 0, 0] [1, 1, 1]],
          ["color_jitter", "color_jitter_prob"]) ∧
    "color_jitter_prob" ∈ ["color_jitter", "color_jitter_prob"] :=
  ⟨rfl, by simp⟩

/-- Claim C3 (amended): on the built-in train path, a successful build
emits the non-fatal unused-keys warning iff any option other than the
consumed `scale` and popped `use_timm` was set, and the warning names
exactly those set keys — including `color_jitter`, `color_jitter_prob` and
`gray_scale_prob` even though the built-in path consumed them. -/
theorem builtin_warning_keys (cfg : AugmentationCfg) (image_size : ℕ)
    (mean std : List ℚ) (steps : List Step) (warn : List String)
    (h : buildTrainBuiltin cfg image_size mean std
      = Except.ok (steps, warn)) :
    warn = extraKeys cfg ∧
    (warn = [] ↔
      cfg.ratio = Option.none ∧ cfg.color_jitter = Option.none ∧
      cfg.interpolation = Option.none ∧ cfg.re_prob = Option.none ∧
      cfg.re_count = Option.none ∧ cfg.color_jitter_prob = Option.none ∧
      cfg.gray_scale_prob = Option.none) := by
  obtain ⟨sc, cj, gs, hsc, hcj, hgs, hsteps, hwarn⟩ :=
    buildTrainBuiltin_ok cfg image_size mean std steps warn h
  have h1 : warn = extraKeys cfg := by
    rw [hwarn]
    exact unusedKeys_eq_extraKeys cfg (by rw [hsc]; rfl)
  refine ⟨h1, ?_⟩
  rw [h1]
  exact extraKeys_eq_nil_iff cfg

/-- Witness for the amended C3: a config setting only `ratio` builds
successfully (non-fatal warning) and the warning names exactly `ratio`. -/
theorem builtin_warning_keys_witness :
    (["ratio"] : List String) = extraKeys cfgRatioOnly ∧
    ((["ratio"] : List String) = [] ↔
      cfgRatioOnly.ratio = Option.none ∧
      cfgRatioOnly.color_jitter = Option.none ∧
      cfgRatioOnly.interpolation = Option.none ∧
      cfgRatioOnly.re_prob = Option.none ∧
      cfgRatioOnly.re_count = Option.none ∧
      cfgRatioOnly.color_jitter_prob = Option.none ∧
      cfgRatioOnly.gray_scale_prob = Option.none) :=
  builtin_warning_keys cfgRatioOnly 224 [0, 0, 0] [1, 1, 1]
    [Step.randomResizedCrop 224 (9/10, 1) Interp.bicubic, Step.convertToRGB,
      Step.toTensor, Step.normalizeStep [0, 0, 0] [1, 1, 1]]
    ["ratio"] rfl

/-- Counterexample to claim C4 as stated: `color_jitter_prob` is set (to
`0.0`), yet the build succeeds and the returned pipeline contains no
color-jitter step — the source gates step (c) on truthiness, not on the
option being set. -/
theorem builtin_pipeline_jitter_prob_zero_counterexample :
    cfgJitterProbZero.color_jitter_prob = Option.some 0 ∧
    buildTrainBuiltin cfgJitterProbZero 224 [0, 0, 0] [1, 1, 1]
      = Except.ok ([Step.randomResizedCrop 224 (9/10, 1) Interp.bicubic,
          Step.convertToRGB, Step.toTensor,
          Step.normalizeStep [0, 0, 0] [1, 1, 1]],
          ["color_jitter_prob"]) ∧
    ([Step.randomResizedCrop 224 (9/10, 1) Interp.bicubic,
        Step.convertToRGB, Step.toTensor,
        Step.normalizeStep [0, 0, 0] [1, 1, 1]].any isColorJitterStep)
      = false :=
  ⟨rfl, rfl, rfl⟩

/-- Claim C4 (amended): every successful train-mode build on the built-in
path returns exactly the ordered pipeline: random-resized-crop (configured
scale, bicubic), RGB coercion, the probabilistic color-jitter step iff its
probability is set and nonzero (truthy), the probabilistic grayscale step
iff its probability is set and nonzero (truthy), tensor conversion, and
normalization — nothing else. -/
theorem builtin_train_pipeline_order (cfg : AugmentationCfg)
    (image_size : ℕ) (mean std : List ℚ) (sc : ℚ × ℚ)
    (hsc : cfg.scale = Option.some sc) (steps : List Step)
    (warn : List String)
    (h : buildTrainBuiltin cfg image_size mean std
      = Except.ok (steps, warn)) :
    steps = [Step.randomResizedCrop image_size sc Interp.bicubic,
        Step.convertToRGB] ++
      (if truthy cfg.color_jitter_prob then
        [Step.colorJitterStep (cfg.color_jitter.getD (JitterMag.scalar 0))
          (cfg.color_jitter_prob.getD 0)]
      else []) ++
      (if truthy cfg.gray_scale_prob then
        [Step.grayScaleStep (cfg.gray_scale_prob.getD 0)]
      else []) ++
      [Step.toTensor, Step.normalizeStep mean std] := by
  obtain ⟨sc', cj, gs, hsc', hcj, hgs, hsteps, hwarn⟩ :=
    buildTrainBuiltin_ok cfg image_size mean std steps warn h
  have hsceq : sc' = sc := by
    rw [hsc] at hsc'
    exact (Option.some.injEq _ _).mp hsc'.symm
  rw [hsteps, hsceq, cjSteps_ok cfg cj hcj, gsSteps_ok cfg gs hgs]

/-- Witness for C4: a config with jitter probability `1` and grayscale
probability `1` yields precisely the six-step pipeline in order. -/
theorem builtin_train_pipeline_order_witness :
    [Step.randomResizedCrop 224 (9/10, 1) Interp.bicubic,
        Step.convertToRGB,
        Step.colorJitterStep (JitterMag.quad 0 0 0 0) 1,
        Step.grayScaleStep 1,
        Step.toTensor, Step.normalizeStep [0, 0, 0] [1, 1, 1]]
      = [Step.randomResizedCrop 224 (9/10, 1) Interp.bicubic,
          Step.convertToRGB] ++
        (if truthy cfgBothProbs.color_jitter_prob then
          [Step.colorJitterStep
            (cfgBothProbs.color_jitter.getD (JitterMag.scalar 0))
            (cfgBothProbs.color_jitter_prob.getD 0)]
        else []) ++
        (if truthy cfgBothProbs.gray_scale_prob then
          [Step.grayScaleStep (cfgBothProbs.gray_scale_prob.getD 0)]
        else []) ++
        [Step.toTensor, Step.normalizeStep [0, 0, 0] [1, 1, 1]] :=
  builtin_train_pipeline_order cfgBothProbs 224 [0, 0, 0] [1, 1, 1]
    (9/10, 1) rfl
    [Step.randomResizedCrop 224 (9/10, 1) Interp.bicubic,
      Step.convertToRGB,
      Step.colorJitterStep (JitterMag.quad 0 0 0 0) 1,
      Step.grayScaleStep 1,
      Step.toTensor, Step.normalizeStep [0, 0, 0] [1, 1, 1]]
    ["color_jitter", "color_jitter_prob", "gray_scale_prob"] (by rfl)

/-- Counterexample to claim C7 as stated: `color_jitter_prob` is set (to
`2`) and `color_jitter` is a 4-tuple, yet construction fails — the claim's
success direction does not hold. -/
theorem cj_arity_counterexample :
    buildTrainBuiltin cfgJitterProbTooBig 224 [0, 0, 0] [1, 1, 1]
      = Except.error BuildErr.assertErr :=
  rfl

/-- Claim C7 (amended): on the built-in train path with
`color_jitter_prob` set to a nonzero value in `[0, 1]` (and any set
`gray_scale_prob` in `[0, 1]`): a missing `color_jitter` magnitude fails
the build with an assertion error, a magnitude that is not of arity 4
fails the build, and a 4-tuple magnitude lets the build succeed. -/
theorem cj_arity_precondition (cfg : AugmentationCfg) (image_size : ℕ)
    (mean std : List ℚ) (p : ℚ) (hsc : cfg.scale.isSome = true)
    (hp : cfg.color_jitter_prob = Option.some p) (hp0 : p ≠ 0)
    (hp1 : 0 ≤ p ∧ p ≤ 1)
    (hgs : ∀ q : ℚ, cfg.gray_scale_prob = Option.some q → 0 ≤ q ∧ q ≤ 1) :
    (cfg.color_jitter = Option.none →
      buildTrainBuiltin cfg image_size mean std
        = Except.error BuildErr.assertErr) ∧
    (∀ mag, cfg.color_jitter = Option.some mag →
      JitterMag.len mag ≠ Option.some 4 →
      ∃ e, buildTrainBuiltin cfg image_size mean std = Except.error e) ∧
    (∀ mag, cfg.color_jitter = Option.some mag →
      JitterMag.len mag = Option.some 4 →
      ∃ res, buildTrainBuiltin cfg image_size mean std
        = Except.ok res) := by
  obtain ⟨sc, hsc'⟩ := Option.isSome_iff_exists.mp hsc
  have hgsok : ∃ gs, gsSteps cfg = Except.ok gs := by
    cases hq : cfg.gray_scale_prob with
    | none => exact ⟨[], by simp [gsSteps, hq]⟩
    | some q =>
      by_cases hq0 : q = 0
      · subst hq0
        exact ⟨[], by simp [gsSteps, hq]⟩
      · exact ⟨[Step.grayScaleStep q],
          by simp [gsSteps, hq, hq0, hgs q hq]⟩
  obtain ⟨gs, hgsok⟩ := hgsok
  refine ⟨?_, ?_, ?_⟩
  · intro hcj
    have : cjSteps cfg = Except.error BuildErr.assertErr := by
      simp [cjSteps, hp, hp0, hcj]
    simp [buildTrainBuiltin, buildSteps, hsc', this]
  · intro mag hcj hlen
    cases mag with
    | scalar x =>
      refine ⟨BuildErr.typeErr, ?_⟩
      have : cjSteps cfg = Except.error BuildErr.typeErr := by
        simp [cjSteps, hp, hp0, hcj, JitterMag.len]
      simp [buildTrainBuiltin, buildSteps, hsc', this]
    | triple a b c =>
      refine ⟨BuildErr.assertErr, ?_⟩
      have : cjSteps cfg = Except.error BuildErr.assertErr := by
        simp [cjSteps, hp, hp0, hcj, JitterMag.len]
      simp [buildTrainBuiltin, buildSteps, hsc', this]
    | quad a b c d => exact absurd rfl hlen
  · intro mag hcj hlen
    cases mag with
    | scalar x => simp [JitterMag.len] at hlen
    | triple a b c => simp [JitterMag.len] at hlen
    | quad a b c d =>
      have hcjok : cjSteps cfg
          = Except.ok [Step.colorJitterStep (JitterMag.quad a b c d) p] := by
        simp [cjSteps, hp, hp0, hcj, JitterMag.len, hp1]
      refine ⟨([Step.randomResizedCrop image_size sc Interp.bicubic,
          Step.convertToRGB] ++
          [Step.colorJitterStep (JitterMag.quad a b c d) p] ++ gs ++
          [Step.toTensor, Step.normalizeStep mean std],
          unusedKeys cfg), ?_⟩
      simp [buildTrainBuiltin, buildSteps, hsc', hcjok, hgsok]

/-- Witness for the amended C7: with a valid probability `1` and a 4-tuple
magnitude, the build succeeds. -/
theorem cj_arity_precondition_witness :
    ∃ res, buildTrainBuiltin cfgJitterValid 224 [0, 0, 0] [1, 1, 1]
      = Except.ok res :=
  (cj_arity_precondition cfgJitterValid 224 [0, 0, 0] [1, 1, 1] 1 rfl rfl
      (by norm_num) (by norm_num)
      (by intro q hq; simp [cfgJitterValid] at hq)).2.2
    (JitterMag.quad 0 0 0 0) rfl rfl

end OpenClipTransform
